import Mathlib

/-!
Verification development for the connector-selection, engine-lifecycle and
error-normalization core of a query/introspection engine.

The definitions below are shallow embeddings of the Rust source:
- the MongoDB error normalizer
  (query-engine/connectors/mongodb-query-connector/src/error.rs),
- the SQL schema-describer selector
  (introspection-engine/connectors/sql-introspection-connector/src/schema_describer_loading.rs),
- the engine lifecycle state machine
  (query-engine/query-engine-c-api/src/engine.rs),
- the introspection orchestrator
  (query-engine/query-engine-c-api/src/introspection.rs).

External collaborator crates (datamodel, query-core, quaint, the mongodb
driver) appear either as abstract type/operation signatures packaged into
structures, or, where a definition is required by a claim but its source is
not part of the provided material, as a definition explicitly marked
"Modelled from the spec".
-/

/-! ## MongoDB driver error shapes (mongodb::error), as used by the normalizer -/

namespace mongodb

/-- Driver write-concern error: carries a status code and a free-text message. -/
structure WriteConcernError where
  code : Int
  message : String
deriving DecidableEq

/-- Driver per-write error: carries a status code and a free-text message. -/
structure WriteError where
  code : Int
  message : String
deriving DecidableEq

/-- Driver write failure: either a write-concern error or a write error.
The source matches these two cases and has a catch-all arm for any other
variant, modelled here by the Other constructor. -/
inductive WriteFailure where
  | WriteConcernError (err : mongodb.WriteConcernError)
  | WriteError (err : mongodb.WriteError)
  | Other
deriving DecidableEq

/-- One entry of a driver bulk-write failure: the index of the failed write
in the batch, a status code, and a free-text message. -/
structure BulkWriteError where
  index : Nat
  code : Int
  message : String
deriving DecidableEq

/-- Driver bulk-write failure: optional per-item errors plus an optional
batch-level write-concern error. -/
structure BulkWriteFailure where
  write_errors : Option (List mongodb.BulkWriteError)
  write_concern_error : Option mongodb.WriteConcernError
deriving DecidableEq

/-- The driver error kinds distinguished by the normalizer. Variants the
source leaves to its catch-all arm are collapsed into Other. -/
inductive ErrorKind where
  | AddrParse
  | ArgumentError
  | AuthenticationError (message : String)
  | WriteError (failure : mongodb.WriteFailure)
  | BulkWriteError (err : mongodb.BulkWriteFailure)
  | BsonDecode (message : String)
  | BsonEncode (message : String)
  | DnsResolve
  | Other
deriving DecidableEq

/-- A driver error value: its kind, plus its Display rendering (the source
formats the whole error into a string in several arms). -/
structure Error where
  kind : mongodb.ErrorKind
  display : String
deriving DecidableEq

end mongodb

/-! ## Connector error taxonomy (connector_interface::error), as used here -/

/-- Structured constraint information recovered from a unique-violation
message: a named index when the message parses, or an explicit
could-not-parse marker. -/
inductive DatabaseConstraint where
  | Index (name : String)
  | CannotParse

/-- The closed connector error taxonomy, restricted to the kinds the
MongoDB normalizer produces. MultiError holds an ordered list of kinds. -/
inductive ErrorKind where
  | UnsupportedFeature (feature : String)
  | ConversionError (message : String)
  | ConnectionError (message : String)
  | QueryError (message : String)
  | AuthenticationFailed (user : String)
  | UniqueConstraintViolation (constraint : DatabaseConstraint)
  | RawError (code : String) (message : String)
  | MultiError (errors : List ErrorKind)
  | InternalConversionError (message : String)

/-- A connector error: by construction via from_kind it carries no
user-facing error and exactly one kind. -/
structure ConnectorError where
  user_facing_error : Option String
  kind : ErrorKind

/-- ConnectorError::from_kind: wrap a kind with no user-facing error. -/
def ConnectorError.from_kind (kind : ErrorKind) : ConnectorError :=
  { user_facing_error := none, kind := kind }

/-- MongoError (mongodb-query-connector error.rs): connector-local error
type. ConversionError carries the two type names of the failed conversion. -/
inductive MongoError where
  | Unsupported (feature : String)
  | ConversionError (source target : String)
  | MalformedObjectId (message : String)
  | DriverError (err : mongodb.Error)

/-! ## The fixed duplicate-key pattern

The source compiles the regular expression
(in words) duplicate \s key \s error \s collection: \s .* \s index: \s (.*) \s dup \s key
and takes capture group 1. The functions below embed this single fixed
pattern with the backtracking semantics of the regex engine: leftmost match
start, greedy unbounded dot-stars with backtracking, dot not matching a
newline, and whitespace-class single characters. -/

/-- Whitespace class: the ASCII characters matched by the pattern's
whitespace element (inputs considered here are ASCII). -/
def wsChar (c : Char) : Bool :=
  c = ' ' || c = '\t' || c = '\n' || c = '\r' || c = '\x0b' || c = '\x0c'

/-- Consume an exact literal from the front of the input. -/
def stripLit : List Char → List Char → Option (List Char)
  | [], s => some s
  | _ :: _, [] => none
  | l :: ls, c :: cs => if c = l then stripLit ls cs else none

/-- Consume one whitespace-class character from the front of the input. -/
def stripWs : List Char → Option (List Char)
  | [] => none
  | c :: cs => if wsChar c then some cs else none

/-- Match the pattern tail following the capture group: one whitespace,
the literal dup, one whitespace, the literal key. -/
def tailAfterGroup (s : List Char) : Bool :=
  match stripWs s with
  | none => false
  | some s1 =>
    match stripLit "dup".toList s1 with
    | none => false
    | some s2 =>
      match stripWs s2 with
      | none => false
      | some s3 => (stripLit "key".toList s3).isSome

/-- Greedy capture group followed by the pattern tail: consume as many
non-newline characters as possible, backtracking until the tail matches;
return the captured characters. acc holds the consumed prefix reversed. -/
def starGreedyCap (acc : List Char) : List Char → Option (List Char)
  | [] => if tailAfterGroup [] then some acc.reverse else none
  | c :: rest =>
    if c = '\n' then
      if tailAfterGroup (c :: rest) then some acc.reverse else none
    else
      match starGreedyCap (c :: acc) rest with
      | some r => some r
      | none => if tailAfterGroup (c :: rest) then some acc.reverse else none

/-- Continuation after the first dot-star: one whitespace, the literal
index colon, one whitespace, then the captured group and tail. -/
def afterCollection (s : List Char) : Option (List Char) :=
  match stripWs s with
  | none => none
  | some s1 =>
    match stripLit "index:".toList s1 with
    | none => none
    | some s2 =>
      match stripWs s2 with
      | none => none
      | some s3 => starGreedyCap [] s3

/-- First (uncaptured) greedy dot-star: consume as many non-newline
characters as possible, backtracking until the continuation succeeds. -/
def starGreedy : List Char → Option (List Char)
  | [] => afterCollection []
  | c :: rest =>
    if c = '\n' then afterCollection (c :: rest)
    else
      match starGreedy rest with
      | some r => some r
      | none => afterCollection (c :: rest)

/-- Match the whole pattern at the current position, returning the capture. -/
def matchPatternAt (s : List Char) : Option (List Char) :=
  match stripLit "duplicate".toList s with
  | none => none
  | some s1 =>
    match stripWs s1 with
    | none => none
    | some s2 =>
      match stripLit "key".toList s2 with
      | none => none
      | some s3 =>
        match stripWs s3 with
        | none => none
        | some s4 =>
          match stripLit "error".toList s4 with
          | none => none
          | some s5 =>
            match stripWs s5 with
            | none => none
            | some s6 =>
              match stripLit "collection:".toList s6 with
              | none => none
              | some s7 =>
                match stripWs s7 with
                | none => none
                | some s8 => starGreedy s8

/-- Leftmost match: try the pattern at every start position, earliest
position first. -/
def findFirstMatch : List Char → Option (List Char)
  | [] => none
  | c :: rest =>
    match matchPatternAt (c :: rest) with
    | some r => some r
    | none => findFirstMatch rest

/-- parse_unique_index_violation: run the fixed pattern over the message
and return capture group 1 (the index name) when it matches. -/
def parse_unique_index_violation (message : String) : Option String :=
  (findFirstMatch message.toList).map fun cs => String.mk cs

/-- unique_violation_error: always a unique-constraint violation; the
constraint is the parsed index name, or the could-not-parse marker. -/
def unique_violation_error (message : String) : ErrorKind :=
  ErrorKind.UniqueConstraintViolation
    (match parse_unique_index_violation message with
      | some index => DatabaseConstraint.Index index
      | none => DatabaseConstraint.CannotParse)

/-- Classification of one bulk-write item (the closure mapped over
write_errors in the BulkWriteError arm): duplicate-key status code 11000
resolves the constraint, any other code is passed through as a raw error
with a message naming the write index. -/
def bulk_write_error_kind (err : mongodb.BulkWriteError) : ErrorKind :=
  if err.code = 11000 then unique_violation_error err.message
  else
    ErrorKind.RawError (toString err.code)
      ("Bulk write error on write index \x27" ++ toString err.index ++ "\x27: " ++ err.message)

/-- Classification of the batch-level write-concern error in the
BulkWriteError arm. -/
def bulk_write_concern_kind (err : mongodb.WriteConcernError) : ErrorKind :=
  if err.code = 11000 then unique_violation_error err.message
  else ErrorKind.RawError (toString err.code) ("Bulk write concern error: " ++ err.message)

/-- MongoError::into_connector_error: the single translation boundary from
driver-native error shapes into the connector taxonomy. -/
def MongoError.into_connector_error : MongoError → ConnectorError
  | MongoError.Unsupported feature => ConnectorError.from_kind (ErrorKind.UnsupportedFeature feature)
  | MongoError.ConversionError source target =>
    ConnectorError.from_kind
      (ErrorKind.ConversionError ("Failed to convert \x27" ++ source ++ "\x27 to \x27" ++ target ++ "\x27."))
  | MongoError.MalformedObjectId message =>
    ConnectorError.from_kind (ErrorKind.ConversionError ("Malformed ObjectID: " ++ message ++ "."))
  | MongoError.DriverError err =>
    match err.kind with
    | mongodb.ErrorKind.AddrParse => ConnectorError.from_kind (ErrorKind.ConnectionError err.display)
    | mongodb.ErrorKind.ArgumentError => ConnectorError.from_kind (ErrorKind.QueryError err.display)
    | mongodb.ErrorKind.AuthenticationError message =>
      ConnectorError.from_kind (ErrorKind.AuthenticationFailed message)
    | mongodb.ErrorKind.WriteError write_failure =>
      match write_failure with
      | mongodb.WriteFailure.WriteConcernError concern_error =>
        if concern_error.code = 11000 then
          ConnectorError.from_kind (unique_violation_error concern_error.message)
        else
          ConnectorError.from_kind
            (ErrorKind.RawError (toString concern_error.code) concern_error.message)
      | mongodb.WriteFailure.WriteError write_error =>
        if write_error.code = 11000 then
          ConnectorError.from_kind (unique_violation_error write_error.message)
        else
          ConnectorError.from_kind (ErrorKind.RawError (toString write_error.code) write_error.message)
      | mongodb.WriteFailure.Other => ConnectorError.from_kind (ErrorKind.QueryError err.display)
    | mongodb.ErrorKind.BulkWriteError bulk =>
      let errors :=
        match bulk.write_errors with
        | some errs => errs.map bulk_write_error_kind
        | none => []
      let errors :=
        match bulk.write_concern_error with
        | some concern => errors ++ [bulk_write_concern_kind concern]
        | none => errors
      ConnectorError.from_kind (ErrorKind.MultiError errors)
    | mongodb.ErrorKind.BsonDecode message =>
      ConnectorError.from_kind (ErrorKind.InternalConversionError ("BSON decode error: " ++ message))
    | mongodb.ErrorKind.BsonEncode message =>
      ConnectorError.from_kind (ErrorKind.InternalConversionError ("BSON encode error: " ++ message))
    | mongodb.ErrorKind.DnsResolve => ConnectorError.from_kind (ErrorKind.ConnectionError err.display)
    | mongodb.ErrorKind.Other => ConnectorError.from_kind (ErrorKind.RawError "unknown" err.display)

/-- The duplicate-key message exercised by the specification. -/
def dupKeyMessage : String :=
  "duplicate key error collection: db.users index: email_1 dup key: \x7b email: \"a@b.com\" \x7d"

/-! ## Schema describer selection (schema_describer_loading.rs)

load_describer parses the connection URL (via the connection library) and
selects the describer backend by an exhaustive match on the database
family. The URL-scheme parsing itself, and the document-store branch, are
performed by code outside the provided material and are modelled from the
specification where noted. -/

/-- Database family tag, one per supported family: the three relational
families matched in load_describer plus the document store named by the
specification. -/
inductive DatabaseFamily where
  | postgres
  | mysql
  | sqlite
  | mongodb
deriving DecidableEq

/-- The closed set of schema describer backends, one per family. The three
SQL constructors correspond to the postgres, mysql and sqlite describers
instantiated in load_describer; the document-store constructor is the
family the specification adds. -/
inductive SchemaDescriberBackend where
  | postgresDescriber
  | mysqlDescriber
  | sqliteDescriber
  | mongodbDescriber
deriving DecidableEq

/-- The family a backend implementation belongs to. -/
def backendFamily : SchemaDescriberBackend → DatabaseFamily
  | SchemaDescriberBackend.postgresDescriber => DatabaseFamily.postgres
  | SchemaDescriberBackend.mysqlDescriber => DatabaseFamily.mysql
  | SchemaDescriberBackend.sqliteDescriber => DatabaseFamily.sqlite
  | SchemaDescriberBackend.mongodbDescriber => DatabaseFamily.mongodb

/-- The exhaustive family-to-backend table of load_describer (postgres,
mysql, sqlite arms from the source; the document-store arm modelled from
the spec's family table). -/
def describerFor : DatabaseFamily → SchemaDescriberBackend
  | DatabaseFamily.postgres => SchemaDescriberBackend.postgresDescriber
  | DatabaseFamily.mysql => SchemaDescriberBackend.mysqlDescriber
  | DatabaseFamily.sqlite => SchemaDescriberBackend.sqliteDescriber
  | DatabaseFamily.mongodb => SchemaDescriberBackend.mongodbDescriber

/-- Characters of the URL before the first colon. -/
def takeScheme : List Char → List Char
  | [] => []
  | c :: rest => if c = ':' then [] else c :: takeScheme rest

/-- The scheme of a connection URL: everything before the first colon. -/
def schemeOf (url : String) : String :=
  String.mk (takeScheme url.toList)

/-- Modelled from the spec: the scheme-to-family table of the connection
descriptor parser (the URL parsing performed by the connection library is
not part of the provided material). postgres and postgresql map to the
postgres family, mysql to mysql, sqlite and file to sqlite, mongodb and
mongodb+srv to the document store; any other scheme is unrecognized. -/
def familyOfScheme (scheme : String) : Option DatabaseFamily :=
  if scheme = "postgres" then some DatabaseFamily.postgres
  else if scheme = "postgresql" then some DatabaseFamily.postgres
  else if scheme = "mysql" then some DatabaseFamily.mysql
  else if scheme = "sqlite" then some DatabaseFamily.sqlite
  else if scheme = "file" then some DatabaseFamily.sqlite
  else if scheme = "mongodb" then some DatabaseFamily.mongodb
  else if scheme = "mongodb+srv" then some DatabaseFamily.mongodb
  else none

/-- Modelled from the spec: the parse failure for an unrecognized scheme,
carrying the offending URL. -/
inductive ConnectionParseError where
  | MalformedConnectionString (url : String)
deriving DecidableEq

/-- load_describer: parse the URL into a family, then select the backend
for exactly that family from the static table and return it together with
the resolved family tag; an unrecognized scheme is a hard parse failure
and no backend is constructed. -/
def load_describer (url : String) :
    Except ConnectionParseError (SchemaDescriberBackend × DatabaseFamily) :=
  match familyOfScheme (schemeOf url) with
  | some family => Except.ok (describerFor family, family)
  | none => Except.error (ConnectionParseError.MalformedConnectionString url)

/-! ## Engine lifecycle state machine (engine.rs)

The engine owns one EngineState value, either an unconnected builder or a
connected engine. The external collaborators the transitions call
(datamodel parsing, executor loading, query-schema building, query
handling) are abstracted as an EngineExt signature of types and
operations; the state machine itself is embedded from the source. -/

/-- crate error ApiError, with payloads rendered as strings. -/
inductive ApiError where
  | Conversion (err : String) (schema : String)
  | Configuration (message : String)
  | Core (message : String)
  | Connector (message : String)
  | AlreadyConnected
  | NotConnected
  | JsonDecode (message : String)
deriving DecidableEq

/-- Build mode passed to the query-schema builder (the source always
passes the modern mode). -/
inductive BuildMode where
  | modern
  | legacy
deriving DecidableEq

/-- Signature of the external collaborators used by the engine lifecycle:
the abstract data-model document, configuration snapshots, datasources,
the executor loader and connection probe, the query-schema builder and the
query handler. Fallible collaborators return Except. -/
structure EngineExt where
  Datamodel : Type
  ValidatedConfiguration : Type
  Datasource : Type
  JsonValue : Type
  QuerySchema : Type
  Executor : Type
  PreviewFeature : Type
  Template : Type
  InternalDataModel : Type
  Capabilities : Type
  GraphQlBody : Type
  PrismaResponse : Type
  convert : Datamodel → Template
  datasources_first : ValidatedConfiguration → Option Datasource
  preview_features : ValidatedConfiguration → List PreviewFeature
  load_url : Datasource → Except String String
  exec_loader_load :
    Datasource → List PreviewFeature → String → Except ApiError (String × Executor)
  get_connection : Executor → Except ApiError Unit
  build_template : Template → String → InternalDataModel
  capabilities : Datasource → Capabilities
  schema_builder_build :
    InternalDataModel → BuildMode → Bool → Capabilities → List PreviewFeature → QuerySchema
  config_to_mcf_json : ValidatedConfiguration → JsonValue
  parse_configuration_with_url_overrides :
    String → List (String × String) → Except String ValidatedConfiguration
  graphql_handle : Executor → QuerySchema → GraphQlBody → PrismaResponse

/-- EngineDatamodel: the information needed to reconnect — datasource URL
overrides, the abstract data-model document, and the raw schema text. -/
structure EngineDatamodel (E : EngineExt) where
  datasource_overrides : List (String × String)
  ast : E.Datamodel
  raw : String

/-- EngineBuilder: the unconnected state — schema document plus a
validated configuration snapshot, no live resources. -/
structure EngineBuilder (E : EngineExt) where
  datamodel : EngineDatamodel E
  config : E.ValidatedConfiguration

/-- ConnectedEngine: the connected state — the same schema document, the
resolved JSON configuration, the compiled query schema and the owned
executor. -/
structure ConnectedEngine (E : EngineExt) where
  datamodel : EngineDatamodel E
  config : E.JsonValue
  query_schema : E.QuerySchema
  executor : E.Executor

namespace QueryEngine

/-- Inner: the engine state, exactly one of the two variants. -/
inductive Inner (E : EngineExt) where
  | Builder (builder : EngineBuilder E)
  | Connected (engine : ConnectedEngine E)

/-- QueryEngine::connect. On a builder state: convert the data model, take
the first datasource, load its URL, load the executor, probe one
connection, build the query schema, and only then install the fully
constructed connected state. Each failure leaves the builder state
unchanged. On a connected state: fail with AlreadyConnected, state
unchanged. The returned pair is the operation result and the state after
the call. -/
def connect (E : EngineExt) (inner : Inner E) : Except ApiError Unit × Inner E :=
  match inner with
  | Inner.Builder builder =>
    let template := E.convert builder.datamodel.ast
    match E.datasources_first builder.config with
    | none => (Except.error (ApiError.Configuration "No valid data source found"), Inner.Builder builder)
    | some data_source =>
      let preview_features := E.preview_features builder.config
      match E.load_url data_source with
      | Except.error err =>
        (Except.error (ApiError.Conversion err builder.datamodel.raw), Inner.Builder builder)
      | Except.ok url =>
        match E.exec_loader_load data_source preview_features url with
        | Except.error e => (Except.error e, Inner.Builder builder)
        | Except.ok (db_name, executor) =>
          match E.get_connection executor with
          | Except.error e => (Except.error e, Inner.Builder builder)
          | Except.ok _ =>
            let internal_data_model := E.build_template template db_name
            let query_schema :=
              E.schema_builder_build internal_data_model BuildMode.modern false
                (E.capabilities data_source) preview_features
            let config := E.config_to_mcf_json builder.config
            (Except.ok (),
              Inner.Connected
                { datamodel := builder.datamodel
                  config := config
                  query_schema := query_schema
                  executor := executor })
  | Inner.Connected engine => (Except.error ApiError.AlreadyConnected, Inner.Connected engine)

/-- QueryEngine::disconnect. On a connected state: re-parse the stored raw
schema text with the session's datasource-URL overrides; on success
install a builder state carrying the same schema document, on failure
return a conversion error and leave the connected state unchanged. On a
builder state: fail with NotConnected, state unchanged. -/
def disconnect (E : EngineExt) (inner : Inner E) : Except ApiError Unit × Inner E :=
  match inner with
  | Inner.Connected engine =>
    match E.parse_configuration_with_url_overrides engine.datamodel.raw
        engine.datamodel.datasource_overrides with
    | Except.error errors =>
      (Except.error (ApiError.Conversion errors engine.datamodel.raw), Inner.Connected engine)
    | Except.ok config =>
      (Except.ok (), Inner.Builder { datamodel := engine.datamodel, config := config })
  | Inner.Builder builder => (Except.error ApiError.NotConnected, Inner.Builder builder)

/-- QueryEngine::query. Only reads the state (a shared read view in the
source): on a connected state delegate to the query handler, on a builder
state fail with NotConnected; the state is returned unchanged in both
cases. -/
def query (E : EngineExt) (inner : Inner E) (body : E.GraphQlBody) :
    Except ApiError E.PrismaResponse × Inner E :=
  match inner with
  | Inner.Connected engine =>
    (Except.ok (E.graphql_handle engine.executor engine.query_schema body), Inner.Connected engine)
  | Inner.Builder builder => (Except.error ApiError.NotConnected, Inner.Builder builder)

end QueryEngine

/-! ## Introspection orchestrator (introspection.rs)

Introspection::introspect parses the configuration (twice, as the source
does), takes the first datasource, resolves its URL with environment
indirection, builds the connector, introspects the live schema and renders
the resulting document — unless the document is empty, in which case it
fails with the distinguished empty-result error. Calls the source unwraps
are modelled as the none result of the whole operation. -/

/-- The abstract data-model document: an ordered list of models and an
ordered list of enums (the shape rebuilt by the orchestrator). -/
structure IntrospectionDatamodel (Model Enum : Type) where
  models : List Model
  enums : List Enum

/-- Modelled from the spec: emptiness of the resulting data-model document
(the document type's own source is not part of the provided material); the
specification keys the empty-result condition on the document containing
no models. -/
def IntrospectionDatamodel.is_empty {Model Enum : Type}
    (dm : IntrospectionDatamodel Model Enum) : Bool :=
  dm.models.isEmpty

/-- The connector's introspection result, as consumed by the orchestrator:
it carries the produced data-model document. -/
structure IntrospectionResult (Model Enum : Type) where
  data_model : IntrospectionDatamodel Model Enum

namespace introspection_core

/-- introspection_core error type, with external payloads rendered as
strings. -/
inductive Error where
  | DatamodelError (message : String)
  | ConnectorError (message : String)
  | IntrospectionResultEmpty (url : String)
  | Generic (message : String)
deriving DecidableEq

end introspection_core

/-- Signature of the external collaborators used by the introspection
orchestrator: configuration parsing, datasources, URL resolution (with
environment indirection; none models an unresolvable URL), connector
construction, live introspection, and document rendering. -/
structure IntrospectionExt where
  Configuration : Type
  Datasource : Type
  Connector : Type
  Model : Type
  Enum : Type
  parse_configuration : String → Except String Configuration
  datasources : Configuration → List Datasource
  preview_features : Configuration → List String
  load_url : Datasource → Option String
  connector_new : String → List String → Except String Connector
  connector_introspect :
    Connector → Datasource → Except String (IntrospectionResult Model Enum)
  render_datamodel_and_config :
    IntrospectionDatamodel Model Enum → Configuration → String

namespace Introspection

/-- Introspection::introspect. The overall none result models the panics
of the source (missing datasource, unresolvable URL); every other failure
is a structured error. When introspection runs to completion, an empty
resulting document fails with IntrospectionResultEmpty carrying the URL;
otherwise the rendered document is returned. -/
def introspect (X : IntrospectionExt) (schema : String) :
    Option (Except introspection_core.Error String) :=
  match X.parse_configuration schema with
  | Except.error e => some (Except.error (introspection_core.Error.DatamodelError e))
  | Except.ok config =>
    match X.parse_configuration schema with
    | Except.error e => some (Except.error (introspection_core.Error.DatamodelError e))
    | Except.ok config2 =>
      match (X.datasources config).head? with
      | none => none
      | some ds =>
        match X.load_url ds with
        | none => none
        | some url =>
          match X.connector_new url (X.preview_features config) with
          | Except.error e => some (Except.error (introspection_core.Error.ConnectorError e))
          | Except.ok connector =>
            match X.connector_introspect connector ds with
            | Except.error e => some (Except.error (introspection_core.Error.ConnectorError e))
            | Except.ok result =>
              if result.data_model.is_empty then
                some (Except.error (introspection_core.Error.IntrospectionResultEmpty url))
              else
                some (Except.ok
                  (X.render_datamodel_and_config
                    { models := result.data_model.models, enums := result.data_model.enums }
                    config2))

end Introspection

/-! ## Concrete collaborator instances used to exercise the state machine -/

/-- A trivial engine collaborator instance on which every external call
succeeds; used to evaluate the lifecycle transitions on concrete states. -/
def unitExt : EngineExt where
  Datamodel := Unit
  ValidatedConfiguration := Unit
  Datasource := Unit
  JsonValue := Unit
  QuerySchema := Unit
  Executor := Unit
  PreviewFeature := Unit
  Template := Unit
  InternalDataModel := Unit
  Capabilities := Unit
  GraphQlBody := Unit
  PrismaResponse := Unit
  convert := fun _ => ()
  datasources_first := fun _ => some ()
  preview_features := fun _ => []
  load_url := fun _ => Except.ok "postgres://localhost/db"
  exec_loader_load := fun _ _ _ => Except.ok ("db", ())
  get_connection := fun _ => Except.ok ()
  build_template := fun _ _ => ()
  capabilities := fun _ => ()
  schema_builder_build := fun _ _ _ _ _ => ()
  config_to_mcf_json := fun _ => ()
  parse_configuration_with_url_overrides := fun _ _ => Except.ok ()
  graphql_handle := fun _ _ _ => ()

/-- An engine collaborator instance whose configuration re-parse fails;
used to exercise the disconnect error path. -/
def reparseFailExt : EngineExt :=
  { unitExt with parse_configuration_with_url_overrides := fun _ _ => Except.error "parse failure" }

/-- A concrete connected state over unitExt. -/
def connectedUnit : ConnectedEngine unitExt :=
  { datamodel := { datasource_overrides := [], ast := (), raw := "schema text" }
    config := ()
    query_schema := ()
    executor := () }

/-- A concrete connected state over reparseFailExt. -/
def connectedFail : ConnectedEngine reparseFailExt :=
  { datamodel := { datasource_overrides := [], ast := (), raw := "schema text" }
    config := ()
    query_schema := ()
    executor := () }

/-- The builder state produced by a successful disconnect of
connectedUnit. -/
def roundtripBuilder : EngineBuilder unitExt :=
  { datamodel := connectedUnit.datamodel, config := () }

/-- The connected state produced by a successful reconnect from
roundtripBuilder. -/
def reconnectedUnit : ConnectedEngine unitExt :=
  { datamodel := connectedUnit.datamodel
    config := ()
    query_schema := ()
    executor := () }

/-- A trivial introspection collaborator instance on which parsing,
connector construction and introspection all succeed and the resulting
document is empty; used to exercise the empty-result path. -/
def emptyIntroExt : IntrospectionExt where
  Configuration := Unit
  Datasource := Unit
  Connector := Unit
  Model := Unit
  Enum := Unit
  parse_configuration := fun _ => Except.ok ()
  datasources := fun _ => [()]
  preview_features := fun _ => []
  load_url := fun _ => some "postgres://localhost/db"
  connector_new := fun _ _ => Except.ok ()
  connector_introspect := fun _ _ => Except.ok { data_model := { models := [], enums := [] } }
  render_datamodel_and_config := fun _ _ => ""

/-! ## Theorems -/

/-- C1: for every engine in the Connected state, a second call to connect
returns the AlreadyConnected error and leaves the engine state unchanged:
still Connected, with the same datamodel, config, query schema and
executor as before the call. -/
theorem connect_on_connected_already_connected (E : EngineExt) (engine : ConnectedEngine E) :
    QueryEngine.connect E (QueryEngine.Inner.Connected engine) =
      (Except.error ApiError.AlreadyConnected, QueryEngine.Inner.Connected engine) := rfl

/-- C2: for every engine in the Unconnected (builder) state, disconnect
returns the NotConnected error and query returns the NotConnected error;
neither changes the state. -/
theorem builder_disconnect_and_query_not_connected (E : EngineExt)
    (builder : EngineBuilder E) (body : E.GraphQlBody) :
    QueryEngine.disconnect E (QueryEngine.Inner.Builder builder) =
      (Except.error ApiError.NotConnected, QueryEngine.Inner.Builder builder)
  ∧ QueryEngine.query E (QueryEngine.Inner.Builder builder) body =
      (Except.error ApiError.NotConnected, QueryEngine.Inner.Builder builder) :=
  ⟨rfl, rfl⟩

/-- C3: normalizing a native write-conflict error with status code 11000
whose message matches the fixed duplicate-key pattern yields
UniqueConstraintViolation with the index name captured from the message;
for the exercised message the constraint is Index "email_1". Both the
per-write and the write-concern conflict shapes are covered. -/
theorem dup_key_message_yields_index_email_1 :
    MongoError.into_connector_error
        (MongoError.DriverError
          { kind := mongodb.ErrorKind.WriteError
              (mongodb.WriteFailure.WriteError { code := 11000, message := dupKeyMessage })
            display := dupKeyMessage }) =
      ConnectorError.from_kind
        (ErrorKind.UniqueConstraintViolation (DatabaseConstraint.Index "email_1"))
  ∧ MongoError.into_connector_error
        (MongoError.DriverError
          { kind := mongodb.ErrorKind.WriteError
              (mongodb.WriteFailure.WriteConcernError { code := 11000, message := dupKeyMessage })
            display := dupKeyMessage }) =
      ConnectorError.from_kind
        (ErrorKind.UniqueConstraintViolation (DatabaseConstraint.Index "email_1")) := by
  constructor <;> rfl

/-- C4: for every message on which the duplicate-key pattern fails to
match, normalizing a status-code-11000 write-conflict error still yields
UniqueConstraintViolation, with the CannotParse constraint; the pattern
failure never produces another error kind and never makes normalization
fail. Both write-conflict shapes are covered. -/
theorem unparsable_dup_key_message_cannot_parse (message display : String)
    (h : parse_unique_index_violation message = none) :
    unique_violation_error message =
      ErrorKind.UniqueConstraintViolation DatabaseConstraint.CannotParse
  ∧ MongoError.into_connector_error
        (MongoError.DriverError
          { kind := mongodb.ErrorKind.WriteError
              (mongodb.WriteFailure.WriteError { code := 11000, message := message })
            display := display }) =
      ConnectorError.from_kind
        (ErrorKind.UniqueConstraintViolation DatabaseConstraint.CannotParse)
  ∧ MongoError.into_connector_error
        (MongoError.DriverError
          { kind := mongodb.ErrorKind.WriteError
              (mongodb.WriteFailure.WriteConcernError { code := 11000, message := message })
            display := display }) =
      ConnectorError.from_kind
        (ErrorKind.UniqueConstraintViolation DatabaseConstraint.CannotParse) := by
  refine ⟨?_, ?_, ?_⟩ <;>
    simp [MongoError.into_connector_error, unique_violation_error, h]

/-- C4 witness: a concrete message the pattern does not match normalizes
to the CannotParse constraint. -/
theorem unparsable_dup_key_message_cannot_parse_witness :
    unique_violation_error "not a recognizable conflict message" =
      ErrorKind.UniqueConstraintViolation DatabaseConstraint.CannotParse
  ∧ MongoError.into_connector_error
        (MongoError.DriverError
          { kind := mongodb.ErrorKind.WriteError
              (mongodb.WriteFailure.WriteError
                { code := 11000, message := "not a recognizable conflict message" })
            display := "display" }) =
      ConnectorError.from_kind
        (ErrorKind.UniqueConstraintViolation DatabaseConstraint.CannotParse)
  ∧ MongoError.into_connector_error
        (MongoError.DriverError
          { kind := mongodb.ErrorKind.WriteError
              (mongodb.WriteFailure.WriteConcernError
                { code := 11000, message := "not a recognizable conflict message" })
            display := "display" }) =
      ConnectorError.from_kind
        (ErrorKind.UniqueConstraintViolation DatabaseConstraint.CannotParse) :=
  unparsable_dup_key_message_cannot_parse "not a recognizable conflict message" "display"
    (by decide)

/-- C5: normalizing a native bulk-write error carrying N per-item write
errors plus one batch-level write-concern error yields a MultiError with
exactly N + 1 entries: the first N are the per-item classifications in the
driver's reported order, and the write-concern classification is last. -/
theorem bulk_write_multi_error_shape (errs : List mongodb.BulkWriteError)
    (concern : mongodb.WriteConcernError) (display : String) :
    MongoError.into_connector_error
        (MongoError.DriverError
          { kind := mongodb.ErrorKind.BulkWriteError
              { write_errors := some errs, write_concern_error := some concern }
            display := display }) =
      ConnectorError.from_kind
        (ErrorKind.MultiError (errs.map bulk_write_error_kind ++ [bulk_write_concern_kind concern]))
  ∧ (errs.map bulk_write_error_kind ++ [bulk_write_concern_kind concern]).length =
      errs.length + 1 := by
  constructor
  · rfl
  · simp

/-- C6: for every supported connection-URL scheme, the backend selector
returns the backend implementation of exactly that URL's database family,
and every successfully selected backend belongs to the family the URL
resolved to — no backend of another family is ever constructed. -/
theorem load_describer_selects_exact_family (url rest : String)
    (backend : SchemaDescriberBackend) (family : DatabaseFamily)
    (h : load_describer url = Except.ok (backend, family)) :
    backendFamily backend = family
  ∧ load_describer ("postgres://" ++ rest) =
      Except.ok (SchemaDescriberBackend.postgresDescriber, DatabaseFamily.postgres)
  ∧ load_describer ("postgresql://" ++ rest) =
      Except.ok (SchemaDescriberBackend.postgresDescriber, DatabaseFamily.postgres)
  ∧ load_describer ("mysql://" ++ rest) =
      Except.ok (SchemaDescriberBackend.mysqlDescriber, DatabaseFamily.mysql)
  ∧ load_describer ("sqlite://" ++ rest) =
      Except.ok (SchemaDescriberBackend.sqliteDescriber, DatabaseFamily.sqlite)
  ∧ load_describer ("file:" ++ rest) =
      Except.ok (SchemaDescriberBackend.sqliteDescriber, DatabaseFamily.sqlite)
  ∧ load_describer ("mongodb://" ++ rest) =
      Except.ok (SchemaDescriberBackend.mongodbDescriber, DatabaseFamily.mongodb)
  ∧ load_describer ("mongodb+srv://" ++ rest) =
      Except.ok (SchemaDescriberBackend.mongodbDescriber, DatabaseFamily.mongodb) := by
  obtain ⟨data⟩ := rest
  refine ⟨?_, rfl, rfl, rfl, rfl, rfl, rfl, rfl⟩
  unfold load_describer at h
  cases hf : familyOfScheme (schemeOf url) with
  | none => rw [hf] at h; exact absurd h (by simp)
  | some family0 =>
    rw [hf] at h
    have hb : backend = describerFor family0 ∧ family0 = family := by
      have := h
      simp at this
      exact ⟨this.1.symm, this.2⟩
    obtain ⟨hb1, hb2⟩ := hb
    subst hb1; subst hb2
    cases family0 <;> rfl

/-- C6 witness: a concrete mysql URL selects the mysql describer, and the
per-scheme table holds at a concrete suffix. -/
theorem load_describer_selects_exact_family_witness :
    backendFamily SchemaDescriberBackend.mysqlDescriber = DatabaseFamily.mysql
  ∧ load_describer ("postgres://" ++ "h/db") =
      Except.ok (SchemaDescriberBackend.postgresDescriber, DatabaseFamily.postgres)
  ∧ load_describer ("postgresql://" ++ "h/db") =
      Except.ok (SchemaDescriberBackend.postgresDescriber, DatabaseFamily.postgres)
  ∧ load_describer ("mysql://" ++ "h/db") =
      Except.ok (SchemaDescriberBackend.mysqlDescriber, DatabaseFamily.mysql)
  ∧ load_describer ("sqlite://" ++ "h/db") =
      Except.ok (SchemaDescriberBackend.sqliteDescriber, DatabaseFamily.sqlite)
  ∧ load_describer ("file:" ++ "h/db") =
      Except.ok (SchemaDescriberBackend.sqliteDescriber, DatabaseFamily.sqlite)
  ∧ load_describer ("mongodb://" ++ "h/db") =
      Except.ok (SchemaDescriberBackend.mongodbDescriber, DatabaseFamily.mongodb)
  ∧ load_describer ("mongodb+srv://" ++ "h/db") =
      Except.ok (SchemaDescriberBackend.mongodbDescriber, DatabaseFamily.mongodb) :=
  load_describer_selects_exact_family "mysql://h/db" "h/db"
    SchemaDescriberBackend.mysqlDescriber DatabaseFamily.mysql (by rfl)

/-- C7: for every connection URL with an unrecognized scheme, selection
fails with MalformedConnectionString carrying the URL, and no backend
value is constructed. -/
theorem unrecognized_scheme_is_malformed (url : String)
    (h : familyOfScheme (schemeOf url) = none) :
    load_describer url =
      Except.error (ConnectionParseError.MalformedConnectionString url) := by
  simp [load_describer, h]

/-- C7 witness: a concrete unrecognized scheme fails with
MalformedConnectionString. -/
theorem unrecognized_scheme_is_malformed_witness :
    load_describer "foobar://h/db" =
      Except.error (ConnectionParseError.MalformedConnectionString "foobar://h/db") :=
  unrecognized_scheme_is_malformed "foobar://h/db" (by decide)

/-- C8: a disconnect that succeeds followed by a connect that succeeds
yields a Connected state whose schema document and raw schema text equal
those held immediately before the disconnect. -/
theorem reconnect_preserves_schema (E : EngineExt)
    (engine engine2 : ConnectedEngine E) (builder : EngineBuilder E)
    (h1 : QueryEngine.disconnect E (QueryEngine.Inner.Connected engine) =
      (Except.ok (), QueryEngine.Inner.Builder builder))
    (h2 : QueryEngine.connect E (QueryEngine.Inner.Builder builder) =
      (Except.ok (), QueryEngine.Inner.Connected engine2)) :
    engine2.datamodel.ast = engine.datamodel.ast
  ∧ engine2.datamodel.raw = engine.datamodel.raw := by
  cases hp : E.parse_configuration_with_url_overrides engine.datamodel.raw
      engine.datamodel.datasource_overrides with
  | error e => simp [QueryEngine.disconnect, hp] at h1
  | ok cfg =>
    simp [QueryEngine.disconnect, hp] at h1
    cases hds : E.datasources_first builder.config with
    | none => simp [QueryEngine.connect, hds] at h2
    | some ds =>
      cases hurl : E.load_url ds with
      | error e => simp [QueryEngine.connect, hds, hurl] at h2
      | ok url =>
        cases hex : E.exec_loader_load ds (E.preview_features builder.config) url with
        | error e => simp [QueryEngine.connect, hds, hurl, hex] at h2
        | ok p =>
          obtain ⟨db_name, executor⟩ := p
          cases hc : E.get_connection executor with
          | error e => simp [QueryEngine.connect, hds, hurl, hex, hc] at h2
          | ok u =>
            simp [QueryEngine.connect, hds, hurl, hex, hc] at h2
            rw [← h2, ← h1]
            exact ⟨rfl, rfl⟩

/-- C8 witness: over the trivial collaborator instance, a concrete
connected state survives a disconnect-reconnect cycle with its document
and raw text unchanged. -/
theorem reconnect_preserves_schema_witness :
    (reconnectedUnit.datamodel.ast = connectedUnit.datamodel.ast)
  ∧ (reconnectedUnit.datamodel.raw = connectedUnit.datamodel.raw) :=
  reconnect_preserves_schema unitExt connectedUnit reconnectedUnit roundtripBuilder
    (by rfl) (by rfl)

/-- C9: when introspection runs to completion and the resulting data-model
document contains no models, the orchestrator returns the
IntrospectionResultEmpty error carrying the connection URL, never success
with an empty document from that path. -/
theorem empty_introspection_result_fails (X : IntrospectionExt) (schema : String)
    (config : X.Configuration) (ds : X.Datasource) (url : String)
    (connector : X.Connector) (result : IntrospectionResult X.Model X.Enum)
    (hparse : X.parse_configuration schema = Except.ok config)
    (hds : (X.datasources config).head? = some ds)
    (hurl : X.load_url ds = some url)
    (hconn : X.connector_new url (X.preview_features config) = Except.ok connector)
    (hres : X.connector_introspect connector ds = Except.ok result)
    (hempty : result.data_model.models = []) :
    Introspection.introspect X schema =
      some (Except.error (introspection_core.Error.IntrospectionResultEmpty url)) := by
  simp [Introspection.introspect, hparse, hds, hurl, hconn, hres,
    IntrospectionDatamodel.is_empty, hempty]

/-- C9 witness: over the trivial collaborator instance whose introspection
result is an empty document, the orchestrator fails with
IntrospectionResultEmpty carrying the URL. -/
theorem empty_introspection_result_fails_witness :
    Introspection.introspect emptyIntroExt "schema" =
      some (Except.error
        (introspection_core.Error.IntrospectionResultEmpty "postgres://localhost/db")) :=
  empty_introspection_result_fails emptyIntroExt "schema" () () "postgres://localhost/db" ()
    { data_model := { models := [], enums := [] } } rfl rfl rfl rfl rfl rfl

/-- C10: disconnect on a Connected engine is not guaranteed to succeed:
when the re-parse of the stored raw schema text with the session's
datasource-URL overrides fails, disconnect returns a conversion error —
an error other than NotConnected — and the engine state remains fully
Connected and unchanged. -/
theorem disconnect_reparse_failure_keeps_connected (E : EngineExt)
    (engine : ConnectedEngine E) (err : String)
    (h : E.parse_configuration_with_url_overrides engine.datamodel.raw
      engine.datamodel.datasource_overrides = Except.error err) :
    QueryEngine.disconnect E (QueryEngine.Inner.Connected engine) =
      (Except.error (ApiError.Conversion err engine.datamodel.raw),
        QueryEngine.Inner.Connected engine)
  ∧ ApiError.Conversion err engine.datamodel.raw ≠ ApiError.NotConnected := by
  constructor
  · simp [QueryEngine.disconnect, h]
  · simp

/-- C10 witness: over the collaborator instance whose configuration
re-parse fails, disconnect on a concrete connected state returns the
conversion error and leaves the state Connected. -/
theorem disconnect_reparse_failure_keeps_connected_witness :
    QueryEngine.disconnect reparseFailExt (QueryEngine.Inner.Connected connectedFail) =
      (Except.error (ApiError.Conversion "parse failure" connectedFail.datamodel.raw),
        QueryEngine.Inner.Connected connectedFail)
  ∧ ApiError.Conversion "parse failure" connectedFail.datamodel.raw ≠ ApiError.NotConnected :=
  disconnect_reparse_failure_keeps_connected reparseFailExt connectedFail "parse failure" rfl
